import Mathlib

/-
Verification of the ScamSniff rule-based scoring engine (app.py).

The embedding models:
  * the text scorer: PHRASES catalog, _score_bucket, combo bonuses,
    clamping, labeling and rounding inside analyze_logic;
  * the profile scorer: PLATFORMS regex table, _detect_platform,
    _score, and the post-fetch logic of the social_check route.

Scores are modelled as exact rationals (the Python floats are decimal
literals with two decimals; all reachable totals are multiples of 1/20,
so rounding and comparisons agree with the float computation at the
granularity the program reports).  Text is modelled as lists of
characters; Python substring membership, str.lower and str.strip are
given structural definitions below.
-/

/-- Python str.lower, at the character-list level (ASCII-faithful). -/
def lowerChars (s : String) : List Char := s.data.map Char.toLower

/-- hasPref t p: the list p is a prefix of the list t. -/
def hasPref : List Char → List Char → Bool
  | _, [] => true
  | [], _ :: _ => false
  | c :: cs, d :: ds => c == d && hasPref cs ds

/-- hasSubL t p: Python membership test p in t (contiguous substring). -/
def hasSubL : List Char → List Char → Bool
  | [], p => hasPref [] p
  | c :: ts, p => hasPref (c :: ts) p || hasSubL ts p

/-- Convenience wrapper: the phrase is given as a string literal. -/
def hasSub (t : List Char) (p : String) : Bool := hasSubL t p.data

/-- Characters removed by Python str.strip with no argument. -/
def isPySpace (c : Char) : Bool :=
  c == ' ' || c == '\t' || c == '\n' || c == '\r' || c == Char.ofNat 11 || c == Char.ofNat 12

/-- Python str.strip at the character-list level. -/
def pyStrip (s : String) : List Char :=
  ((s.data.dropWhile isPySpace).reverse.dropWhile isPySpace).reverse

/-- Python round(x, 2).  The CPython tie-break (half-to-even on the
binary float) never fires on the totals this program produces, which are
all multiples of 1/20 or the clamp bound 99/100, so half-up rounding on
exact rationals is a faithful model. -/
def round2 (q : ℚ) : ℚ := (⌊q * 100 + 1/2⌋ : ℤ) / 100

/-- The apostrophe character, used inside two catalog phrases. -/
def apos : String := String.mk [Char.ofNat 39]

/-- PHRASES["payment_methods"] from app.py lines 71 to 77. -/
def payment_methods : List (String × ℚ) :=
  [("gift card", 60/100), ("gift cards", 60/100),
   ("bitcoin", 50/100), ("western union", 50/100), ("moneygram", 45/100),
   ("zelle", 40/100), ("cash app", 40/100),
   ("wire transfer", 40/100), ("prepaid card", 45/100),
   ("google play card", 55/100), ("apple gift card", 55/100)]

/-- PHRASES["check_overpayment"] from app.py lines 78 to 84. -/
def check_overpayment : List (String × ℚ) :=
  [("cashier" ++ apos ++ "s check", 50/100), ("cash a check", 50/100), ("cash the check", 50/100),
   ("overpay", 40/100), ("over payment", 40/100),
   ("refund the extra", 40/100), ("send the rest", 40/100),
   ("shipping agent", 40/100), ("mover will pick up", 40/100),
   ("deposit the check", 40/100)]

/-- PHRASES["sob_story"] from app.py lines 85 to 89. -/
def sob_story : List (String × ℚ) :=
  [("mother is sick", 30/100), ("my mother" ++ apos ++ "s sick", 30/100),
   ("family emergency", 30/100), ("stranded", 30/100),
   ("hospital", 30/100), ("surgery", 30/100), ("dying", 30/100)]

/-- PHRASES["urgency"] from app.py lines 90 to 93. -/
def urgency : List (String × ℚ) :=
  [("urgent", 30/100), ("immediately", 25/100),
   ("right now", 20/100), ("asap", 20/100)]

/-- The PHRASES dict in declaration order (Python dicts preserve it). -/
def PHRASES : List (String × List (String × ℚ)) :=
  [("payment_methods", payment_methods),
   ("check_overpayment", check_overpayment),
   ("sob_story", sob_story),
   ("urgency", urgency)]

/-- One signal entry, the dict with keys name and score built in
_score_bucket and in the combo branches of analyze_logic. -/
structure Signal where
  name : String
  score : ℚ
deriving DecidableEq, Repr

/-- The sublist of a bucket whose phrases occur in the text: exactly the
iterations of the _score_bucket loop that take the if branch, in order. -/
def matched (text : List Char) (bucket : List (String × ℚ)) : List (String × ℚ) :=
  bucket.filter (fun pw => hasSub text pw.1)

/-- _score_bucket from app.py lines 96 to 105: returns the summed weight
of the matching phrases, their signals in catalog order, and the
any-hit flag. -/
def _score_bucket (text : List Char) (bucket : List (String × ℚ)) : ℚ × List Signal × Bool :=
  ((matched text bucket).foldl (fun a pw => a + pw.2) 0,
   (matched text bucket).map (fun pw => { name := "Keyword: " ++ pw.1, score := pw.2 }),
   !(matched text bucket).isEmpty)

/-- Condition of the first combo bonus (app.py line 122): a
payment-method hit together with a sob-story hit. -/
def combo_sob_payment (text : List Char) : Bool :=
  !(matched text payment_methods).isEmpty && !(matched text sob_story).isEmpty

/-- Condition of the second combo bonus (app.py line 126): a
check-overpayment hit plus one of four literal substrings. -/
def combo_check_overpayment (text : List Char) : Bool :=
  !(matched text check_overpayment).isEmpty &&
    (hasSub text "cash" || hasSub text "deposit" || hasSub text "send the rest" || hasSub text "refund")

/-- Condition of the third combo bonus (app.py line 130): payment-method
hit, urgency hit, and a literal gift-card mention. -/
def combo_urgent_gift (text : List Char) : Bool :=
  !(matched text payment_methods).isEmpty && !(matched text urgency).isEmpty &&
    (hasSub text "gift card" || hasSub text "gift cards")

/-- The running total of analyze_logic just before clamping: baseline
0.10, plus the four bucket sums, plus the fired combo bonuses. -/
def rawTotal (text : List Char) : ℚ :=
  1/10 + (_score_bucket text payment_methods).1 + (_score_bucket text check_overpayment).1
    + (_score_bucket text sob_story).1 + (_score_bucket text urgency).1
    + (if combo_sob_payment text then 25/100 else 0)
    + (if combo_check_overpayment text then 25/100 else 0)
    + (if combo_urgent_gift text then 20/100 else 0)

/-- The signal list of analyze_logic: bucket signals in category
declaration order, then combo signals in rule declaration order. -/
def analyze_signals (text : List Char) : List Signal :=
  (_score_bucket text payment_methods).2.1 ++ (_score_bucket text check_overpayment).2.1
    ++ (_score_bucket text sob_story).2.1 ++ (_score_bucket text urgency).2.1
    ++ (if combo_sob_payment text then
          [{ name := "Pattern: sob story + unusual payment method", score := 25/100 }] else [])
    ++ (if combo_check_overpayment text then
          [{ name := "Pattern: check overpayment", score := 25/100 }] else [])
    ++ (if combo_urgent_gift text then
          [{ name := "Pattern: urgent gift-card payment", score := 20/100 }] else [])

/-- app.py line 134: total = max(0.0, min(total, 0.99)). -/
def clampedTotal (text : List Char) : ℚ := max 0 (min (rawTotal text) (99/100))

/-- app.py line 135: the threshold chain mapping the clamped total to a
label. -/
def labelOf (total : ℚ) : String :=
  if total ≥ 75/100 then "HIGH" else if total ≥ 45/100 then "MEDIUM" else "LOW"

/-- The dict returned by analyze_logic (app.py line 137). -/
structure AnalyzeResult where
  ok : Bool
  summary : String
  score : ℚ
  signals : List Signal
  echo : String
deriving DecidableEq, Repr

/-- analyze_logic from app.py lines 107 to 137, for string input (the
declared parameter type).  text is the lower-cased message; the score is
the clamped total rounded to two decimals. -/
def analyze_logic (message : String) : AnalyzeResult :=
  let text := lowerChars message
  { ok := true,
    summary := "Scam likelihood: " ++ labelOf (clampedTotal text),
    score := round2 (clampedTotal text),
    signals := analyze_signals text,
    echo := message }

/-- A fragment of the Python value universe, enough to model calling
analyze_logic with a non-string argument. -/
inductive PyVal where
  | pyNone : PyVal
  | pyStr : String → PyVal
  | pyInt : Int → PyVal
deriving DecidableEq, Repr

/-- Python truthiness on the modelled values. -/
def PyVal.truthy : PyVal → Bool
  | .pyNone => false
  | .pyStr s => !s.data.isEmpty
  | .pyInt n => n != 0

/-- analyze_logic under CPython dynamic semantics: line 108 evaluates
(message or "").lower(), so a falsy argument is replaced by the empty
string, while a truthy non-string reaches .lower() and raises
AttributeError.  The echo field of the returned dict holds the original
message object; in this model it is the coerced string (the claims about
dynamic input concern only score, signals and summary). -/
def analyze_logic_dyn (v : PyVal) : Except String AnalyzeResult :=
  match (if v.truthy then v else PyVal.pyStr "") with
  | .pyStr s => Except.ok (analyze_logic s)
  | .pyNone => Except.error "AttributeError: NoneType object has no attribute lower"
  | .pyInt _ => Except.error "AttributeError: int object has no attribute lower"

/-- The PLATFORMS regex table (app.py lines 235 to 241), reduced to the
data the anchored patterns depend on: each platform keeps the list of
host-plus-path prefixes that may follow the scheme and optional www dot,
after which the pattern requires one character outside the class
slash, question mark, hash. -/
def PLATFORMS : List (String × List String) :=
  [("facebook", ["facebook.com/"]),
   ("x", ["x.com/", "twitter.com/"]),
   ("linkedin", ["linkedin.com/in/", "linkedin.com/company/"]),
   ("instagram", ["instagram.com/"]),
   ("tiktok", ["tiktok.com/@"])]

/-- One character matching the regex class excluding slash, question
mark and hash. -/
def pathCharOk (c : Char) : Bool := !(c == '/' || c == '?' || c == '#')

/-- The regex tail: at least one path character must follow. -/
def tailMatch : List Char → Bool
  | [] => false
  | c :: _ => pathCharOk c

/-- Does one of the host prefixes match here, followed by a valid path
character. -/
def hostMatch (s : List Char) (pres : List String) : Bool :=
  pres.any (fun p => hasPref s p.data && tailMatch (s.drop p.data.length))

/-- Semantics of one PLATFORMS pattern under re.search with re.I: the
pattern is anchored at the start, so the stripped lower-cased URL must
begin with http, optional s, colon-slash-slash, an optional www dot
(greedy with backtracking, hence the disjunction), a host prefix, and
one further path character. -/
def platMatch (pres : List String) (url : String) : Bool :=
  let s := (pyStrip url).map Char.toLower
  (if hasPref s "https://".data then some (s.drop 8)
   else if hasPref s "http://".data then some (s.drop 7)
   else none).elim false
    (fun rest => (hasPref rest "www.".data && hostMatch (rest.drop 4) pres) || hostMatch rest pres)

/-- _detect_platform from app.py lines 243 to 247: first matching table
entry wins; no match gives None. -/
def _detect_platform (url : String) : Option String :=
  (PLATFORMS.find? (fun np => platMatch np.2 url)).map Prod.fst

/-- Python truthiness of the optional platform string, as tested by the
line if not platform_detected in _score. -/
def optTruthy : Option String → Bool
  | none => false
  | some s => !s.data.isEmpty

/-- Python condition status_code and status_code >= 400 from app.py
line 290. -/
def statusGE400 : Option Nat → Bool
  | none => false
  | some c => (c != 0) && decide (400 ≤ c)

/-- Body of the per-signal loop of _score (app.py lines 292 to 298):
three independent conditional additions. -/
def _score_step (acc : ℚ) (s : String) : ℚ :=
  let a1 := if hasPref s.data "Missing og:".data then acc + 5/100 else acc
  let a2 := if hasPref s.data "Page indicates:".data then a1 + 25/100 else a1
  if hasSubL s.data "Very small page".data then a2 + 1/10 else a2

/-- _score from app.py lines 286 to 299. -/
def _score (sigs : List String) (platform_detected : Option String) (status_code : Option Nat) : ℚ :=
  let s0 : ℚ := 1/2
  let s1 := if optTruthy platform_detected then s0 else s0 + 25/100
  let s2 := if statusGE400 status_code then s1 + 3/10 else s1
  max 0 (min 1 (sigs.foldl _score_step s2))

/-- Spec-side per-signal contribution: 0.05 for a missing-metadata
signal, 0.25 for a negative-phrase signal, 0.1 for a very-small-page
signal, summed because the three tests in the loop are independent. -/
def sigContrib (s : String) : ℚ :=
  (if hasPref s.data "Missing og:".data then 5/100 else 0)
    + (if hasPref s.data "Page indicates:".data then 25/100 else 0)
    + (if hasSubL s.data "Very small page".data then 1/10 else 0)

/-- The JSON object returned by the social_check route. -/
structure SocialResult where
  score : ℚ
  summary : String
  platform : Option String
  status : Option Nat
  signals : List String
deriving DecidableEq, Repr

/-- The summary f-string of app.py line 322.  Numeric rendering is
abstracted: the risk is printed as numerator over denominator. -/
def socialSummary (platform : Option String) (status : Option Nat) (nsigs : Nat) (sc : ℚ) : String :=
  "Platform: " ++ (match platform with
    | some p => if p.data.isEmpty then "unknown" else p
    | none => "unknown")
  ++ "; HTTP: " ++ (match status with
    | some c => if c = 0 then "n/a" else toString c
    | none => "n/a")
  ++ "; Signals: " ++ toString nsigs ++ "; Risk: " ++ toString sc.num ++ "/" ++ toString sc.den

/-- The social_check route (app.py lines 301 to 330) after the network
fetch: head and get carry the status code and, for get, the body text
(for head, the lower-cased location header target).  HTML analysis
(_analyze_html) depends on the external BeautifulSoup parser and is
passed in as a collaborator function; the claims settled here only
exercise the branch where no HTML was fetched, which never calls it. -/
def social_check_logic (analyzeHtml : String → List String) (urlField : String)
    (head : Option (Nat × String)) (get : Option (Nat × String)) : Except String SocialResult :=
  let url : List Char := pyStrip urlField
  if url.isEmpty then Except.error ("Missing " ++ apos ++ "url" ++ apos)
  else
    let platform := _detect_platform (String.mk url)
    let status : Option Nat := get.map Prod.fst
    let html : String := match get with | some g => g.2 | none => ""
    let sigs0 : List String :=
      if (match head with
          | some h => (h.1 == 301 || h.1 == 302) && hasSub (lowerChars h.2) "login"
          | none => false)
      then ["Redirected to login (profile may be private)"] else []
    let sigs := if !html.data.isEmpty then sigs0 ++ analyzeHtml html
                else sigs0 ++ ["No HTML fetched (network error or blocked)"]
    let sc := round2 (_score sigs platform status)
    Except.ok { score := sc,
                summary := socialSummary platform status sigs.length sc,
                platform := platform, status := status, signals := sigs.take 20 }

/-- The worked example input of the spec, used by several claims. -/
def msgC4 : String := "I need you to pay me with gift cards right now"

/- ---------------- Helper lemmas ---------------- -/

lemma matched_pm_C4 : matched (lowerChars msgC4) payment_methods = [("gift card", 60/100), ("gift cards", 60/100)] := rfl

lemma matched_co_C4 : matched (lowerChars msgC4) check_overpayment = [] := rfl

lemma matched_ss_C4 : matched (lowerChars msgC4) sob_story = [] := rfl

lemma matched_ur_C4 : matched (lowerChars msgC4) urgency = [("right now", 20/100)] := rfl

lemma combo1_C4 : combo_sob_payment (lowerChars msgC4) = false := by decide

lemma combo2_C4 : combo_check_overpayment (lowerChars msgC4) = false := by decide

lemma combo3_C4 : combo_urgent_gift (lowerChars msgC4) = true := by decide

lemma rawTotal_C4 : rawTotal (lowerChars msgC4) = 17/10 := by
  rw [rawTotal, _score_bucket, _score_bucket, _score_bucket, _score_bucket]
  rw [matched_pm_C4, matched_co_C4, matched_ss_C4, matched_ur_C4, combo1_C4, combo2_C4, combo3_C4]
  norm_num

lemma clamped_C4 : clampedTotal (lowerChars msgC4) = 99/100 := by
  rw [clampedTotal, rawTotal_C4]; norm_num [min_def, max_def]

lemma score_eq (m : String) : (analyze_logic m).score = round2 (clampedTotal (lowerChars m)) := rfl

lemma score_C4 : (analyze_logic msgC4).score = 99/100 := by
  rw [score_eq, clamped_C4]; norm_num [round2]

lemma round2_mono {q r : ℚ} (h : q ≤ r) : round2 q ≤ round2 r := by
  have hf : (⌊q * 100 + 1/2⌋ : ℤ) ≤ ⌊r * 100 + 1/2⌋ := Int.floor_le_floor (by linarith)
  have hq : ((⌊q * 100 + 1/2⌋ : ℤ) : ℚ) ≤ ((⌊r * 100 + 1/2⌋ : ℤ) : ℚ) := by exact_mod_cast hf
  unfold round2
  linarith

lemma raw_empty : rawTotal (lowerChars "") = 1/10 := by
  rw [rawTotal, _score_bucket, _score_bucket, _score_bucket, _score_bucket]
  rw [show matched (lowerChars "") payment_methods = [] from rfl,
      show matched (lowerChars "") check_overpayment = [] from rfl,
      show matched (lowerChars "") sob_story = [] from rfl,
      show matched (lowerChars "") urgency = [] from rfl,
      show combo_sob_payment (lowerChars "") = false from rfl,
      show combo_check_overpayment (lowerChars "") = false from rfl,
      show combo_urgent_gift (lowerChars "") = false from rfl]
  norm_num

lemma step_eq (acc : ℚ) (s : String) : _score_step acc s = acc + sigContrib s := by
  simp only [_score_step, sigContrib]
  split_ifs <;> ring

lemma foldl_step (l : List String) (init : ℚ) :
    l.foldl _score_step init = init + (l.map sigContrib).sum := by
  induction l generalizing init with
  | nil => simp
  | cons s t ih => simp only [List.foldl_cons, List.map_cons, List.sum_cons, step_eq, ih]; ring

lemma score_formula (sigs : List String) (platform : Option String) (status : Option Nat) :
    _score sigs platform status =
      max 0 (min 1 (1/2 + (if optTruthy platform then 0 else 25/100)
        + (if statusGE400 status then 3/10 else 0) + (sigs.map sigContrib).sum)) := by
  simp only [_score, foldl_step]
  split_ifs <;> ring_nf

lemma sigContrib_noHTML : sigContrib "No HTML fetched (network error or blocked)" = 0 := by
  rw [sigContrib,
      show hasPref "No HTML fetched (network error or blocked)".data "Missing og:".data = false from rfl,
      show hasPref "No HTML fetched (network error or blocked)".data "Page indicates:".data = false from rfl,
      show hasSubL "No HTML fetched (network error or blocked)".data "Very small page".data = false from rfl]
  norm_num

lemma score_noHTML_example :
    _score ["No HTML fetched (network error or blocked)"] (_detect_platform "https://example.com/johndoe") none = 3/4 := by
  rw [show _detect_platform "https://example.com/johndoe" = none from by decide]
  rw [score_formula]
  simp only [List.map_cons, List.map_nil, List.sum_cons, List.sum_nil, sigContrib_noHTML]
  norm_num [optTruthy, statusGE400, min_def, max_def]

lemma half_le_score_noHTML (p : Option String) :
    1/2 ≤ round2 (_score ["No HTML fetched (network error or blocked)"] p none) := by
  rw [score_formula]
  have hsum : (["No HTML fetched (network error or blocked)"].map sigContrib).sum = 0 := by
    simp [sigContrib_noHTML]
  rw [hsum, show statusGE400 none = false from rfl]
  cases hp : optTruthy p
  · norm_num [min_def, max_def, round2]
  · norm_num [min_def, max_def, round2]

lemma clamped_nonneg (t : List Char) : 0 ≤ clampedTotal t := le_max_left _ _

lemma clamped_le99 (t : List Char) : clampedTotal t ≤ 99/100 := max_le (by norm_num) (min_le_right _ _)

lemma round2_zero : round2 0 = 0 := by norm_num [round2]

lemma round2_99 : round2 (99/100) = 99/100 := by norm_num [round2]

lemma score_nonneg (m : String) : 0 ≤ (analyze_logic m).score := by
  rw [score_eq]
  have h := round2_mono (clamped_nonneg (lowerChars m))
  rw [round2_zero] at h
  exact h

lemma score_le99 (m : String) : (analyze_logic m).score ≤ 99/100 := by
  rw [score_eq]
  have h := round2_mono (clamped_le99 (lowerChars m))
  rw [round2_99] at h
  exact h

/- ---------------- Claim theorems ---------------- -/

/-- Claim C1, counterexample to the stated form: on the gift-card
message the accumulated running total is 1.7, which is at least 1, yet
the returned score is 0.99 and not 1.0, so the upper clamp bound is not
1 as the claim asserts. -/
theorem C1_counterexample :
    1 ≤ rawTotal (lowerChars msgC4) ∧ (analyze_logic msgC4).score = 99/100 ∧
      (analyze_logic msgC4).score ≠ 1 := by
  refine ⟨?_, score_C4, ?_⟩
  · rw [rawTotal_C4]; norm_num
  · rw [score_C4]; norm_num

/-- Claim C1 (amended): for every input message the final score equals
the accumulated running total clamped via max and min to the closed
interval from 0 to 0.99 and then rounded to two decimals; the score
always lies in that interval, and whenever the accumulated total is at
least 0.99 the returned score is exactly 0.99 (in particular a total of
1 or more yields 0.99, never 1.0). -/
theorem C1_theorem (m : String) :
    (analyze_logic m).score = round2 (max 0 (min (rawTotal (lowerChars m)) (99/100))) ∧
    0 ≤ (analyze_logic m).score ∧ (analyze_logic m).score ≤ 99/100 ∧
    (99/100 ≤ rawTotal (lowerChars m) → (analyze_logic m).score = 99/100) := by
  refine ⟨rfl, score_nonneg m, score_le99 m, ?_⟩
  intro h
  rw [score_eq, clampedTotal, min_eq_right h, max_eq_right (by norm_num : (0:ℚ) ≤ 99/100), round2_99]

/-- Claim C1 witness: the amended clamp behaviour evaluated on the
gift-card message, whose total 1.7 exceeds 0.99. -/
theorem C1_witness : (analyze_logic msgC4).score = 99/100 :=
  (C1_theorem msgC4).2.2.2 (by rw [rawTotal_C4]; norm_num)

/-- Claim C2: the label is determined from the clamped total by the
fixed thresholds: at least 0.75 yields HIGH, at least 0.45 but below
0.75 yields MEDIUM, below 0.45 yields LOW; exactly 0.75 is HIGH,
exactly 0.45 is MEDIUM, and 0.4499 is LOW; and the summary of
analyze_logic is built from labelOf applied to the clamped total. -/
theorem C2_theorem (s : ℚ) (m : String) :
    (75/100 ≤ s → labelOf s = "HIGH") ∧
    (45/100 ≤ s ∧ s < 75/100 → labelOf s = "MEDIUM") ∧
    (s < 45/100 → labelOf s = "LOW") ∧
    labelOf (75/100) = "HIGH" ∧ labelOf (45/100) = "MEDIUM" ∧ labelOf (4499/10000) = "LOW" ∧
    (analyze_logic m).summary = "Scam likelihood: " ++ labelOf (clampedTotal (lowerChars m)) := by
  refine ⟨?_, ?_, ?_, ?_, ?_, ?_, rfl⟩
  · intro h; rw [labelOf, if_pos h]
  · intro h; rw [labelOf, if_neg (not_le.mpr h.2), if_pos h.1]
  · intro h
    rw [labelOf, if_neg (not_le.mpr (by linarith)), if_neg (not_le.mpr h)]
  · norm_num [labelOf]
  · norm_num [labelOf]
  · norm_num [labelOf]

/-- Claim C2 witness: the three threshold implications evaluated at 0.8,
0.5 and 0.1. -/
theorem C2_witness :
    labelOf (8/10) = "HIGH" ∧ labelOf (1/2) = "MEDIUM" ∧ labelOf (1/10) = "LOW" :=
  ⟨(C2_theorem (8/10) "").1 (by norm_num),
   (C2_theorem (1/2) "").2.1 (by norm_num),
   (C2_theorem (1/10) "").2.2.1 (by norm_num)⟩

/-- Claim C3: scoring the empty string returns exactly the baseline
score 0.10, an empty signal list, and the label LOW. -/
theorem C3_theorem :
    analyze_logic "" = { ok := true, summary := "Scam likelihood: LOW", score := 1/10, signals := [], echo := "" } := by
  have hc : clampedTotal (lowerChars "") = 1/10 := by
    rw [clampedTotal, raw_empty]; norm_num [min_def, max_def]
  have hl : labelOf (clampedTotal (lowerChars "")) = "LOW" := by rw [hc]; norm_num [labelOf]
  have hs : round2 (clampedTotal (lowerChars "")) = 1/10 := by rw [hc]; norm_num [round2]
  have hall : analyze_logic "" = { ok := true, summary := "Scam likelihood: " ++ labelOf (clampedTotal (lowerChars "")), score := round2 (clampedTotal (lowerChars "")), signals := analyze_signals (lowerChars ""), echo := "" } := rfl
  rw [hall, hl, hs]
  rfl

/-- Claim C4: on the message I need you to pay me with gift cards right
now, the signal list is exactly the two payment keywords, the urgency
keyword, and the urgent gift-card combo pattern, in that order; the
score is at least 0.75 and the label is HIGH. -/
theorem C4_theorem :
    (analyze_logic msgC4).signals =
      [⟨"Keyword: gift card", 60/100⟩, ⟨"Keyword: gift cards", 60/100⟩,
       ⟨"Keyword: right now", 20/100⟩, ⟨"Pattern: urgent gift-card payment", 20/100⟩] ∧
    75/100 ≤ (analyze_logic msgC4).score ∧
    (analyze_logic msgC4).summary = "Scam likelihood: HIGH" := by
  refine ⟨rfl, ?_, ?_⟩
  · rw [score_C4]; norm_num
  · have hsum : (analyze_logic msgC4).summary = "Scam likelihood: " ++ labelOf (clampedTotal (lowerChars msgC4)) := rfl
    rw [hsum, clamped_C4, show labelOf (99/100) = "HIGH" from by norm_num [labelOf]]
    rfl

/-- Claim C5: the profile score is the exact additive composition of
baseline 0.5, 0.25 for an undetected platform, 0.3 for an HTTP status
of 400 or more, and the per-signal contributions (0.05 missing
metadata, 0.25 negative phrase, 0.1 very small page), clamped to the
unit interval; for a URL matching no platform regex and an unreachable
host the score is 0.5 plus 0.25, that is 0.75. -/
theorem C5_theorem (sigs : List String) (platform : Option String) (status : Option Nat) :
    _score sigs platform status =
      max 0 (min 1 (1/2 + (if optTruthy platform then 0 else 25/100)
        + (if statusGE400 status then 3/10 else 0) + (sigs.map sigContrib).sum)) ∧
    _score ["No HTML fetched (network error or blocked)"] (_detect_platform "https://example.com/johndoe") none = 3/4 :=
  ⟨score_formula sigs platform status, score_noHTML_example⟩

/-- Claim C6, counterexample to the stated form: the truthy non-string
input 5 does not behave like the empty string; it reaches .lower() and
raises AttributeError. -/
theorem C6_counterexample : analyze_logic_dyn (PyVal.pyInt 5) ≠ Except.ok (analyze_logic "") := by
  rw [show analyze_logic_dyn (PyVal.pyInt 5) = Except.error "AttributeError: int object has no attribute lower" from rfl]
  intro hcontra
  exact Except.noConfusion hcontra

/-- Claim C6 (amended): every falsy input (None, the empty string, a
falsy non-string value such as the integer 0) is scored exactly as the
empty string: same baseline score, empty signal list, same summary; the
no-exception guarantee does not extend to truthy non-string inputs,
which raise AttributeError in .lower(). -/
theorem C6_theorem (v : PyVal) (h : v.truthy = false) :
    ∃ r, analyze_logic_dyn v = Except.ok r ∧ r.score = (analyze_logic "").score ∧
      r.signals = [] ∧ r.summary = (analyze_logic "").summary := by
  cases v with
  | pyNone => exact ⟨analyze_logic "", rfl, rfl, rfl, rfl⟩
  | pyStr s =>
      have hs : s = "" := by
        cases s with
        | mk data =>
          cases data with
          | nil => rfl
          | cons c cs => simp [PyVal.truthy] at h
      subst hs
      exact ⟨analyze_logic "", rfl, rfl, rfl, rfl⟩
  | pyInt n =>
      have hn : n = 0 := by
        by_contra hne
        simp [PyVal.truthy, hne] at h
      subst hn
      exact ⟨analyze_logic "", rfl, rfl, rfl, rfl⟩

/-- Claim C6 witness: the None input is scored as the empty string. -/
theorem C6_witness :
    ∃ r, analyze_logic_dyn PyVal.pyNone = Except.ok r ∧ r.score = (analyze_logic "").score ∧
      r.signals = [] ∧ r.summary = (analyze_logic "").summary :=
  C6_theorem PyVal.pyNone rfl

/-- Claim C7: when the fetch failed entirely (no HEAD response and no
GET response), the profile check returns a result rather than an error,
its signal list is exactly the no-content signal, and the score is at
least the 0.5 baseline. -/
theorem C7_theorem (ah : String → List String) (url : String) (h : (pyStrip url).isEmpty = false) :
    ∃ r, social_check_logic ah url none none = Except.ok r ∧
      r.signals = ["No HTML fetched (network error or blocked)"] ∧ 1/2 ≤ r.score := by
  simp only [social_check_logic, h, Bool.false_eq_true, if_false, List.isEmpty_nil, Bool.not_true,
    Option.map_none, List.nil_append]
  refine ⟨_, rfl, rfl, half_le_score_noHTML _⟩

/-- Claim C7 witness: a concrete unreachable profile URL with an
extractor that is never called. -/
theorem C7_witness :
    ∃ r, social_check_logic (fun _ => []) "https://example.com/johndoe" none none = Except.ok r ∧
      r.signals = ["No HTML fetched (network error or blocked)"] ∧ 1/2 ≤ r.score :=
  C7_theorem (fun _ => []) "https://example.com/johndoe" (by decide)

/-- Claim C8: platform detection walks the fixed ordered table
facebook, x, linkedin, instagram, tiktok, the first match wins, a URL
matching no pattern is unknown; the linkedin example is detected and
the example.com URL is not. -/
theorem C8_theorem (url : String) (h : ∀ p ∈ PLATFORMS, platMatch p.2 url = false) :
    _detect_platform "https://www.linkedin.com/in/johndoe" = some "linkedin" ∧
    _detect_platform "https://example.com/johndoe" = none ∧
    PLATFORMS.map Prod.fst = ["facebook", "x", "linkedin", "instagram", "tiktok"] ∧
    _detect_platform url = none := by
  refine ⟨by decide, by decide, rfl, ?_⟩
  rw [_detect_platform, List.find?_eq_none.mpr]
  · rfl
  · intro np hnp
    simp [h np hnp]

/-- Claim C8 witness: the detection facts evaluated with a URL matching
no platform pattern. -/
theorem C8_witness :
    _detect_platform "https://www.linkedin.com/in/johndoe" = some "linkedin" ∧
    _detect_platform "https://example.com/johndoe" = none ∧
    PLATFORMS.map Prod.fst = ["facebook", "x", "linkedin", "instagram", "tiktok"] ∧
    _detect_platform "ftp://nowhere" = none :=
  C8_theorem "ftp://nowhere" (by decide)

/-- Claim C9: text scoring is deterministic: two invocations on equal
input texts produce identical scores, identical summaries (labels) and
identical signal lists; the scorer is a pure function of its input. -/
theorem C9_theorem (m1 m2 : String) (h : m1 = m2) :
    (analyze_logic m1).score = (analyze_logic m2).score ∧
    (analyze_logic m1).summary = (analyze_logic m2).summary ∧
    (analyze_logic m1).signals = (analyze_logic m2).signals := by
  subst h
  exact ⟨rfl, rfl, rfl⟩

/-- Claim C9 witness: two invocations on the same concrete text. -/
theorem C9_witness :
    (analyze_logic "urgent").score = (analyze_logic "urgent").score ∧
    (analyze_logic "urgent").summary = (analyze_logic "urgent").summary ∧
    (analyze_logic "urgent").signals = (analyze_logic "urgent").signals :=
  C9_theorem "urgent" "urgent" rfl

/-- Claim C10: for every input message the returned score is at most
0.99 and never equals 1; it is also nonnegative, so the clamp interval
actually attained is from 0 to 0.99. -/
theorem C10_theorem (m : String) :
    (analyze_logic m).score ≤ 99/100 ∧ (analyze_logic m).score ≠ 1 ∧ 0 ≤ (analyze_logic m).score :=
  ⟨score_le99 m, ne_of_lt (lt_of_le_of_lt (score_le99 m) (by norm_num)), score_nonneg m⟩
